import Mathlib

/-!
# Verification of `color-converter.cpp`

A shallow embedding of the color conversion utility from
`src/color-converter.cpp`, which converts between Endless Sky fractional
RGB color values and 24-bit hexadecimal HTML color codes.

Modelling conventions:
* C++ `double` channel values are modelled as `ℚ`.  Every concrete input
  used in a theorem below is a dyadic rational (0, 1/2, -1, 2, n/255 with
  exact intermediate products), on which IEEE double arithmetic is exact,
  so the rational model agrees with the C++ behavior at those points.
* The `double → int` conversion in `ESToHTML` truncates toward zero; this
  is `truncQ` below (T-division of numerator by denominator).
* C++ `std::string` is modelled as Lean `String`; `hex[0]` on an empty
  `std::string` is the defined value `'\x00'` (C++11), modelled by
  `List.headD` with default `'\x00'`.
* `DataNode` / `DataFile` live outside `src/`; the spec treats the
  tokenizer as an external collaborator, so records are modelled
  abstractly (see `DataNode`).
-/

namespace ColorConverter

/-- The fixed digit table `DecToHex` from `ToHex` in `color-converter.cpp`. -/
def DecToHex : List Char :=
  ['0', '1', '2', '3', '4', '5', '6', '7', '8', '9', 'A', 'B', 'C', 'D', 'E', 'F']

/-- Definition of `ToHex` from `color-converter.cpp` (`string ToHex(int val)`):
if `val >= 16` it returns `DecToHex[val / 16] + ToHex(val % 16)`,
otherwise the single character `DecToHex[val]`.  The C++ function is only
ever called after clamping to `[0, 255]`, so the argument is a `Nat`. -/
def ToHex (val : Nat) : String :=
  if 16 ≤ val then
    String.singleton (DecToHex.getD (val / 16) '0') ++ ToHex (val % 16)
  else
    String.singleton (DecToHex.getD val '0')
termination_by val
decreasing_by omega

/-- The contribution of one character in the `HexToDec` lambda inside
`HTMLToES`: for each of the ranges `'0'..'9'`, `'A'..'F'`, `'a'..'f'`
that contains the character, `(c - lower)` is added. -/
def charContrib (c : Char) : Nat :=
  (if '0'.toNat ≤ c.toNat ∧ c.toNat ≤ '9'.toNat then c.toNat - '0'.toNat else 0)
  + (if 'A'.toNat ≤ c.toNat ∧ c.toNat ≤ 'F'.toNat then c.toNat - 'A'.toNat else 0)
  + (if 'a'.toNat ≤ c.toNat ∧ c.toNat ≤ 'f'.toNat then c.toNat - 'a'.toNat else 0)

/-- The loop of `HexToDec`: iterate over the reversed string with a
multiplier starting at 1 and multiplied by 16 after each character. -/
def HexToDecGo : List Char → Nat → Nat
  | [], _ => 0
  | c :: rest, mult => charContrib c * mult + HexToDecGo rest (mult * 16)

/-- The `HexToDec` lambda defined inside `HTMLToES` in
`color-converter.cpp`: decode a string of hex digits, least significant
character last; characters in none of the recognized ranges add nothing. -/
def HexToDec (input : String) : Nat :=
  HexToDecGo input.data.reverse 1

/-- Semantics of `std::string::substr(pos, len)` (for `pos ≤ size`): the substring of
length `min len (size - pos)` starting at `pos`. -/
def substr (s : String) (pos len : Nat) : String :=
  String.mk ((s.data.drop pos).take len)

/-- Truncation of a rational toward zero, the semantics of the C++
`double → int` conversion in `int val = node.Value(index + i) * 255;`.
`Int.tdiv` is T-division (rounds toward zero). -/
def truncQ (q : ℚ) : Int :=
  Int.tdiv q.num (q.den : Int)

/-- The per-channel computation in `ESToHTML`:
`val = value * 255` (truncated toward zero), `val = min(255, val)`,
`val = max(0, val)`.  The result is a byte in `[0, 255]`. -/
def clampByte (q : ℚ) : Nat :=
  (max 0 (min 255 (truncQ (q * 255)))).toNat

/-- Modelled from the spec: the external tokenizer (`DataNode` /
`DataFile`, declared in `shared/` and not present under `src/`).  Per the
spec (§2), a record is a named entity with an ordered sequence of string
fields; `DataNode::Value(i)` is the numeric reading of field `i`.  Each
token is modelled as its string form paired with its numeric value. -/
structure DataNode where
  toks : List (String × ℚ)
deriving DecidableEq

/-- Accessor `DataNode::Token(i)`: the string form of field `i`. -/
def DataNode.Token (n : DataNode) (i : Nat) : String :=
  (n.toks.getD i ("", 0)).1

/-- Accessor `DataNode::Value(i)`: the numeric value of field `i`. -/
def DataNode.Value (n : DataNode) (i : Nat) : ℚ :=
  (n.toks.getD i ("", 0)).2

/-- Accessor `DataNode::Size()`: the number of tokens in the record. -/
def DataNode.Size (n : DataNode) : Nat :=
  n.toks.length

/-- Definition of `ESToHTML` from `color-converter.cpp`: `"#"` followed by, for each of
the three channels at `index`, `index+1`, `index+2`, the `ToHex` encoding
of the clamped truncation of `value * 255`. -/
def ESToHTML (node : DataNode) (index : Nat) : String :=
  "#" ++ String.join (((List.range 3).map
    (fun i => ToHex (clampByte (node.Value (index + i))))))

/-- The spec's `FractionsToHex`: `ESToHTML` applied to a record holding
the given channel values (starting at index 0). -/
def FractionsToHex (vs : List ℚ) : String :=
  ESToHTML ⟨vs.map (fun v => ("", v))⟩ 0

/-- Definition of `HTMLToES` from `color-converter.cpp`: empty result if the first
character (`'\x00'` for the empty string) is not `'#'` or the length is
below 7; otherwise the three values `HexToDec(hex.substr(i, 2)) / 255`
for `i = 1, 3, 5`. -/
def HTMLToES (hex : String) : List ℚ :=
  if hex.data.headD '\x00' ≠ '#' then []
  else if hex.length < 7 then []
  else (List.range 3).map
    (fun k => ((HexToDec (substr hex (1 + 2 * k) 2) : ℚ) / 255))

/-- Definition of `ESFileToHTML` from `color-converter.cpp`, with the file contents
already tokenized into records: keep the records whose first token is
`"color"` and which have at least 5 tokens, and print one line
`"<name>" <hex>` per kept record. -/
def ESFileToHTML (nodes : List DataNode) : List String :=
  (nodes.filter (fun n => n.Token 0 = "color" ∧ 5 ≤ n.Size)).map
    (fun n => "\"" ++ n.Token 1 ++ "\" " ++ ESToHTML n 2)

/-- The printing of one `double` by `operator<<` in `HTMLFileToES`,
abstracted: only the empty-values case matters for the claims below. -/
def showVal (v : ℚ) : String :=
  toString v

/-- Definition of `HTMLFileToES` from `color-converter.cpp`, with the file contents
already tokenized into records: keep the records whose first token is
`"color"` and which have at least 3 tokens, and print one line
`color"<name>"` followed by `' '` and each decoded value. -/
def HTMLFileToES (nodes : List DataNode) : List String :=
  (nodes.filter (fun n => n.Token 0 = "color" ∧ 3 ≤ n.Size)).map
    (fun n => "color\"" ++ n.Token 1 ++ "\"" ++
      String.join ((HTMLToES (n.Token 2)).map (fun v => " " ++ showVal v)))

/-- The spec's notion of a hexadecimal digit: `'0'-'9'`, `'A'-'F'`, or
`'a'-'f'` (compared by code point, as the C++ code compares `char`s). -/
def isHexDigit (c : Char) : Prop :=
  ('0'.toNat ≤ c.toNat ∧ c.toNat ≤ '9'.toNat)
  ∨ ('A'.toNat ≤ c.toNat ∧ c.toNat ≤ 'F'.toNat)
  ∨ ('a'.toNat ≤ c.toNat ∧ c.toNat ≤ 'f'.toNat)

instance (c : Char) : Decidable (isHexDigit c) := by
  unfold isHexDigit
  infer_instance

/-- List.range 3, spelled out; the loop `for(int i = 0; i < 3; ++i)`. -/
theorem range_three : List.range 3 = [0, 1, 2] := by decide

/-- Unfolding of `ToHex` below 16: a single digit. -/
theorem ToHex_low {v : Nat} (h : v < 16) :
    ToHex v = String.singleton (DecToHex.getD v '0') := by
  rw [ToHex]
  rw [if_neg (by omega)]

/-- Unfolding of `ToHex` at 16 and above. -/
theorem ToHex_high {v : Nat} (h : 16 ≤ v) :
    ToHex v = String.singleton (DecToHex.getD (v / 16) '0') ++ ToHex (v % 16) := by
  rw [ToHex]
  rw [if_pos h]

/-- Closed form of `ToHex` on a byte: the high digit appears only when
the value is at least 16 — there is no zero padding. -/
theorem ToHex_byte {v : Nat} (h : v ≤ 255) :
    ToHex v = (if 16 ≤ v then String.singleton (DecToHex.getD (v / 16) '0') else "")
      ++ String.singleton (DecToHex.getD (v % 16) '0') := by
  by_cases h16 : 16 ≤ v
  · rw [ToHex_high h16, if_pos h16, ToHex_low (by omega)]
  · rw [ToHex_low (by omega), if_neg h16, Nat.mod_eq_of_lt (by omega)]
    rfl

/-- Evaluation of `clampByte` at -1 (underflow clamps to 0). -/
theorem clampByte_neg_one : clampByte (-1) = 0 := by
  norm_num [clampByte, truncQ]

/-- Evaluation of `clampByte` at 2 (overflow clamps to 255). -/
theorem clampByte_two : clampByte 2 = 255 := by
  norm_num [clampByte, truncQ]
  decide

/-- Evaluation of `clampByte` at 1/2 (127.5 truncates to 127). -/
theorem clampByte_half : clampByte (1 / 2) = 127 := by
  norm_num [clampByte, truncQ]
  decide

/-- Evaluation of `clampByte` at 0. -/
theorem clampByte_zero : clampByte 0 = 0 := by
  norm_num [clampByte, truncQ]

/-- Evaluation of `clampByte` at 1 (full intensity is 255). -/
theorem clampByte_one : clampByte 1 = 255 := by
  norm_num [clampByte, truncQ]
  decide

/-- C1: the claim says ToHex returns a string of exactly two uppercase
hexadecimal characters for every value in [0, 255], zero-padded, with
ToHex(0) = "00".  The code disagrees: for values below 16 `ToHex` returns
a single character, so `ToHex 0 = "0"`, of length 1, not `"00"`. -/
theorem toHex_drops_leading_zero :
    ToHex 0 = "0" ∧ (ToHex 0).length = 1 ∧ ToHex 0 ≠ "00" := by
  rw [ToHex_low (by norm_num)]
  refine ⟨by decide, by decide, by decide⟩

/-- C2: the claim says FractionsToHex always returns `#` followed by
exactly 6 hexadecimal digits, and maps (-1.0, 2.0, 0.5) to "#00FF7F".
The code truncates and clamps as claimed (giving bytes 0, 255, 127), but
the missing zero padding in `ToHex` produces "#0FF7F" — 5 digits, not a
well-formed `#rrggbb` string. -/
theorem fractionsToHex_not_well_formed :
    FractionsToHex [-1, 2, 1 / 2] = "#0FF7F"
      ∧ FractionsToHex [-1, 2, 1 / 2] ≠ "#00FF7F"
      ∧ (FractionsToHex [-1, 2, 1 / 2]).length ≠ 7 := by
  have h : FractionsToHex [-1, 2, 1 / 2] = "#0FF7F" := by
    norm_num [FractionsToHex, ESToHTML, DataNode.Value, range_three]
    rw [clampByte_neg_one, clampByte_two, clampByte_half]
    rw [ToHex_byte (by norm_num), ToHex_byte (by norm_num), ToHex_byte (by norm_num)]
    decide
  rw [h]
  refine ⟨rfl, by decide, by decide⟩

/-- C3: the claim says encoding the decoding of any `#`-plus-6-hex-digit
string returns the same string uppercased.  At "#000000" the decode gives
channel values (0, 0, 0) and re-encoding gives "#000" (no zero padding),
not "#000000". -/
theorem hex_roundtrip_fails_at_black :
    HTMLToES "#000000" = [0, 0, 0]
      ∧ FractionsToHex (HTMLToES "#000000") = "#000"
      ∧ "#000" ≠ "#000000" := by
  have h0 : HTMLToES "#000000" = [0, 0, 0] := by
    norm_num [HTMLToES, substr, HexToDec, HexToDecGo, String.length, range_three,
      show charContrib '0' = 0 from by decide]
  refine ⟨h0, ?_, by decide⟩
  rw [h0]
  norm_num [FractionsToHex, ESToHTML, DataNode.Value, range_three]
  rw [clampByte_zero, ToHex_low (by norm_num)]
  decide

/-- C4: the claim says HexPairToByte(ByteToHex(v)) = v for all bytes v.
The decoding loop in `HexToDec` adds `c - 'A'` for characters in
'A'..'F' (instead of `c - 'A' + 10`), so letters decode as 0-5: at
v = 255 the encoding is "FF" but the decode returns 5 * 16 + 5 = 85. -/
theorem byte_roundtrip_fails_at_255 :
    ToHex 255 = "FF" ∧ HexToDec (ToHex 255) = 85 ∧ (85 : Nat) ≠ 255 := by
  have h : ToHex 255 = "FF" := by
    rw [ToHex_byte (by norm_num)]
    decide
  rw [h]
  refine ⟨rfl, by decide, by decide⟩

/-- C8: the claim says decoding FractionsToHex([f0, f1, f2]) yields three
fractions within 1/255 of the originals, for all inputs in [0, 1].  At
(1, 1, 1) the encoding is "#FFFFFF", whose decode is (1/3, 1/3, 1/3)
because `HexToDec` decodes 'F' as 5; the error 1 - 1/3 = 2/3 exceeds
1/255.  (At (0, 0, 0) it fails differently: "#000" decodes to nothing.) -/
theorem fraction_roundtrip_fails_at_white :
    FractionsToHex [1, 1, 1] = "#FFFFFF"
      ∧ HTMLToES "#FFFFFF" = [1 / 3, 1 / 3, 1 / 3]
      ∧ ¬((1 : ℚ) - 1 / 3 ≤ 1 / 255) := by
  refine ⟨?_, ?_, by norm_num⟩
  · norm_num [FractionsToHex, ESToHTML, DataNode.Value, range_three]
    rw [clampByte_one]
    rw [ToHex_byte (by norm_num)]
    decide
  · norm_num [HTMLToES, substr, HexToDec, HexToDecGo, String.length, range_three,
      show charContrib 'F' = 5 from by decide]

/-- Bound for one character of the decoding loop: each character adds at
most 15 times the multiplier (at most 9 for digits, at most 5 for
letters, 0 otherwise). -/
theorem charContrib_le (c : Char) : charContrib c ≤ 15 := by
  unfold charContrib
  simp only [show '0'.toNat = 48 from rfl, show '9'.toNat = 57 from rfl,
    show 'A'.toNat = 65 from rfl, show 'F'.toNat = 70 from rfl,
    show 'a'.toNat = 97 from rfl, show 'f'.toNat = 102 from rfl]
  split_ifs <;> omega

/-- Bound for the decoding loop: a string of n characters decodes to
less than 16 ^ n times the starting multiplier. -/
theorem hexToDecGo_add_le (l : List Char) : ∀ m, HexToDecGo l m + m ≤ 16 ^ l.length * m := by
  induction l with
  | nil =>
    intro m
    simp [HexToDecGo]
  | cons c rest ih =>
    intro m
    have h1 : charContrib c * m ≤ 15 * m := Nat.mul_le_mul_right m (charContrib_le c)
    have h2 := ih (m * 16)
    simp only [HexToDecGo, List.length_cons, pow_succ]
    linarith

/-- Decoding at most two characters yields at most 255, whatever the
characters are. -/
theorem hexToDec_le (t : String) (h : t.data.length ≤ 2) : HexToDec t ≤ 255 := by
  have h2 := hexToDecGo_add_le t.data.reverse 1
  have h3 : (16 : Nat) ^ t.data.reverse.length ≤ 16 ^ 2 :=
    Nat.pow_le_pow_right (by norm_num) (by simpa using h)
  unfold HexToDec
  omega

/-- C5: HTMLToES returns the empty sequence (and, being a total
function, raises no exception) exactly when the input does not start
with '#' or is shorter than 7 characters; in particular both
HTMLToES "123456" and HTMLToES "#12" are empty. -/
theorem htmlToES_empty_iff :
    (∀ s : String, HTMLToES s = [] ↔ (s.data.head? ≠ some '#' ∨ s.length < 7))
      ∧ HTMLToES "123456" = [] ∧ HTMLToES "#12" = [] := by
  refine ⟨fun s => ?_, by norm_num [HTMLToES, String.length],
    by norm_num [HTMLToES, String.length]⟩
  unfold HTMLToES
  rcases hd : s.data with _ | ⟨c, rest⟩
  · have hlen : s.length < 7 := by simp [String.length, hd]
    simp [hd, hlen]
  · by_cases hc : c = '#'
    · subst hc
      by_cases hl : s.length < 7
      · simp [hd, hl]
      · simp [hd, hl, range_three]
    · simp [hd, hc]

/-- C6: in a two-character input to the HexToDec decoder, each character
contributes its own value at its position, and a character in none of
the ranges '0'-'9', 'A'-'F', 'a'-'f' contributes 0 — the decode is never
rejected. -/
theorem hexPair_nonhex_contributes_zero :
    (∀ c₁ c₂ : Char, HexToDec (String.mk [c₁, c₂]) = 16 * charContrib c₁ + charContrib c₂)
      ∧ ∀ c : Char, ¬ isHexDigit c → charContrib c = 0 := by
  constructor
  · intro c₁ c₂
    simp [HexToDec, HexToDecGo]
    ring
  · intro c hc
    unfold isHexDigit at hc
    unfold charContrib
    rw [if_neg (fun h => hc (Or.inl h)), if_neg (fun h => hc (Or.inr (Or.inl h))),
      if_neg (fun h => hc (Or.inr (Or.inr h)))]

/-- Witness for C6 at the non-hex character 'G'. -/
theorem hexPair_nonhex_witness :
    HexToDec (String.mk ['G', '1']) = 16 * charContrib 'G' + charContrib '1'
      ∧ charContrib 'G' = 0 :=
  ⟨hexPair_nonhex_contributes_zero.1 'G' '1',
   hexPair_nonhex_contributes_zero.2 'G' (by decide)⟩

/-- C7: in ES-to-HTML record conversion, a "color" record with fewer
than 3 fields after the name is skipped entirely — the output is as if
the record were absent; in particular the record `color "Bad" 1 0`
produces no output line. -/
theorem esFileToHTML_skips_short_records :
    (∀ (pre post : List DataNode) (v : ℚ) (name : String × ℚ)
        (fields : List (String × ℚ)),
        fields.length < 3 →
        ESFileToHTML (pre ++ DataNode.mk (("color", v) :: name :: fields) :: post)
          = ESFileToHTML (pre ++ post))
      ∧ ESFileToHTML [DataNode.mk [("color", 0), ("Bad", 0), ("1", 1), ("0", 0)]] = [] := by
  constructor
  · intro pre post v name fields hlen
    unfold ESFileToHTML
    rw [List.filter_append, List.filter_append, List.filter_cons]
    have hcond : ¬((DataNode.mk (("color", v) :: name :: fields)).Token 0 = "color"
        ∧ 5 ≤ (DataNode.mk (("color", v) :: name :: fields)).Size) := by
      simp only [DataNode.Size, List.length_cons]
      omega
    simp [hcond]
  · simp [ESFileToHTML, DataNode.Token, DataNode.Size, List.filter]

/-- Witness for C7 at the record `color "Bad" 1 0`. -/
theorem esFileToHTML_skips_witness :
    ESFileToHTML ([] ++ DataNode.mk [("color", 0), ("Bad", 0), ("1", 1), ("0", 0)] :: [])
      = ESFileToHTML ([] ++ []) :=
  esFileToHTML_skips_short_records.1 [] [] 0 ("Bad", 0) [("1", 1), ("0", 0)] (by norm_num)

/-- C9: in HTML-to-ES record conversion, a "color" record whose hex
token fails to decode (HTMLToES returns empty) is still processed: it
produces exactly the line `color"<name>"` with nothing after the name,
rather than being skipped. -/
theorem htmlFileToES_keeps_undecodable_records :
    ∀ (pre post : List DataNode) (v₀ nv hv : ℚ) (name hex : String)
      (rest : List (String × ℚ)),
      HTMLToES hex = [] →
      HTMLFileToES (pre ++ DataNode.mk (("color", v₀) :: (name, nv) :: (hex, hv) :: rest) :: post)
        = HTMLFileToES pre ++ ("color\"" ++ name ++ "\"") :: HTMLFileToES post := by
  intro pre post v₀ nv hv name hex rest h
  unfold HTMLFileToES
  rw [List.filter_append, List.filter_cons]
  have hcond : (DataNode.mk (("color", v₀) :: (name, nv) :: (hex, hv) :: rest)).Token 0 = "color"
      ∧ 3 ≤ (DataNode.mk (("color", v₀) :: (name, nv) :: (hex, hv) :: rest)).Size := by
    refine ⟨by simp [DataNode.Token], ?_⟩
    simp only [DataNode.Size, List.length_cons]
    omega
  simp only [hcond, and_self, decide_True, if_true, List.map_append, List.map_cons]
  simp [DataNode.Token, h, String.join, String.append_empty]

/-- Witness for C9 at a record whose hex token "zzz" fails to decode. -/
theorem htmlFileToES_keeps_witness :
    HTMLFileToES ([] ++ DataNode.mk [("color", 0), ("Name", 0), ("zzz", 0)] :: [])
      = HTMLFileToES [] ++ ("color\"" ++ "Name" ++ "\"") :: HTMLFileToES [] :=
  htmlFileToES_keeps_undecodable_records [] [] 0 0 0 "Name" "zzz" []
    (by norm_num [HTMLToES, String.length])

/-- C10: HTMLToES is total on all strings (the embedding is a total
function; the C++ accesses are in range, `hex[0]` on the empty string
included), its result has length exactly 0 or exactly 3, and every
returned value lies in [0, 1] — each decoded two-character group is at
most 255 even when the characters are not hex digits. -/
theorem htmlToES_total_bounds :
    ∀ s : String, ((HTMLToES s).length = 0 ∨ (HTMLToES s).length = 3)
      ∧ ∀ x ∈ HTMLToES s, 0 ≤ x ∧ x ≤ 1 := by
  intro s
  have hb : ∀ k : Nat, 0 ≤ ((HexToDec (substr s (1 + 2 * k) 2) : ℚ) / 255)
      ∧ ((HexToDec (substr s (1 + 2 * k) 2) : ℚ) / 255) ≤ 1 := by
    intro k
    have hlen : (substr s (1 + 2 * k) 2).data.length ≤ 2 := by
      simp [substr]
    have hle := hexToDec_le _ hlen
    constructor
    · positivity
    · rw [div_le_one (by norm_num)]
      exact_mod_cast hle
  constructor
  · unfold HTMLToES
    split_ifs <;> simp [range_three]
  · intro x hx
    unfold HTMLToES at hx
    split_ifs at hx
    · simp at hx
    · simp at hx
    · rw [range_three] at hx
      simp only [List.map_cons, List.map_nil, List.mem_cons, List.not_mem_nil, or_false] at hx
      rcases hx with h | h | h <;> (subst h; exact hb _)

/-- Witness for C10 at the input "#000000" and its first decoded value. -/
theorem htmlToES_total_bounds_witness :
    (((HTMLToES "#000000").length = 0 ∨ (HTMLToES "#000000").length = 3))
      ∧ (0 ≤ (0 : ℚ) ∧ (0 : ℚ) ≤ 1) := by
  refine ⟨(htmlToES_total_bounds "#000000").1, (htmlToES_total_bounds "#000000").2 0 ?_⟩
  rw [show HTMLToES "#000000" = [0, 0, 0] from by
    norm_num [HTMLToES, substr, HexToDec, HexToDecGo, String.length, range_three,
      show charContrib '0' = 0 from by decide]]
  simp

end ColorConverter
